import Mathlib

/-!
Verification of the `Euler1D_Solve` class from `src/src_py/src/solvers.py`
(explicit forward-Euler solver for a scalar ODE initial-value problem).

The embedding models Python's loosely-typed constructor arguments with the
inductive type `PyVal` (a boolean, an arbitrary-precision integer, a float,
or a string).  Python's `bool` is a subclass of `int`, so
`isinstance(True, int)` and `isinstance(True, (int, float))` both hold;
`isinstance_int` below reflects that.  Real arithmetic is modelled exactly
with `Rat` (the claims under study are structural: validation outcomes,
lengths, the recurrence, exact endpoint/step identities — `np.linspace`
assigns the final element to `stop` exactly, which the rational model
reproduces).  Raised exceptions are modelled with `Except` over the spec's
`InvalidArgument` taxonomy: `TypeError("f must be a callable function.")`
is `NotCallable`, `TypeError("t_start and t_end must be numbers.")` and
`TypeError("y_0 must be a real number.")` are `NotANumber`,
`ValueError("t_start must be less than t_end.")` is `RangeViolation`, and
`ValueError("num_steps must be a pos integer.")` is `InvalidStepCount`.
-/

namespace FlaxTeal

/-- Python value supplied for one of the numeric constructor arguments. -/
inductive PyVal where
  | vBool : Bool → PyVal
  | vInt : Int → PyVal
  | vFloat : Rat → PyVal
  | vStr : String → PyVal

/-- `isinstance(v, int)`; true for booleans because `bool` is a subclass of
`int` in Python. -/
def isinstance_int : PyVal → Bool
  | .vBool _ => true
  | .vInt _ => true
  | _ => false

/-- `isinstance(v, float)`. -/
def isinstance_float : PyVal → Bool
  | .vFloat _ => true
  | _ => false

/-- `isinstance(v, bool)`. -/
def isinstance_bool : PyVal → Bool
  | .vBool _ => true
  | _ => false

/-- `isinstance(v, (int, float))`. -/
def isinstance_int_or_float (v : PyVal) : Bool :=
  isinstance_int v || isinstance_float v

/-- Numeric value of a Python number (`float(v)`, and the value used by
numeric comparisons); `True` counts as 1 and `False` as 0.  Strings have no
numeric value; the default 0 is never reached behind an `isinstance` guard. -/
def toRat : PyVal → Rat
  | .vBool b => if b then 1 else 0
  | .vInt n => (n : Rat)
  | .vFloat q => q
  | .vStr _ => 0

/-- Integer value of a Python `int` (booleans included). -/
def toInt : PyVal → Int
  | .vBool b => if b then 1 else 0
  | .vInt n => n
  | _ => 0

/-- The spec's `InvalidArgument` error taxonomy for construction failures. -/
inductive InvalidArgument where
  | NotCallable
  | NotANumber
  | RangeViolation
  | InvalidStepCount
deriving DecidableEq

/-- `np.linspace(start, stop, num)` (default `endpoint=True`): the points
`start + i * step` for `i < num` with `step = (stop - start) / (num - 1)`,
and the last element assigned to `stop` exactly when `num > 1`. -/
def linspace (start stop : Rat) (num : Nat) : List Rat :=
  let step : Rat := (stop - start) / ((num - 1 : Nat) : Rat)
  let ys := (List.range num).map (fun (i : Nat) => start + (i : Rat) * step)
  if 1 < num then ys.set (num - 1) stop else ys

/-- `create_1d_mesh`: `np.linspace(t_start, t_end, num_steps + 1)`. -/
def create_1d_mesh (t_start t_end : Rat) (num_steps : Nat) : List Rat :=
  linspace t_start t_end (num_steps + 1)

/-- `calc_step_size`: `(t_end - t_start) / num_steps`.  `none` models the
`ZeroDivisionError` Python would raise when the divisor is zero. -/
def calc_step_size (t_start t_end : Rat) (num_steps : Nat) : Option Rat :=
  if num_steps = 0 then none else some ((t_end - t_start) / (num_steps : Rat))

/-- One iteration of the `solve` loop body:
`t = self.mesh[k]; y[k + 1] = y[k] + self.h * self.f(t, y[k])`. -/
def eulerStep (f : Rat → Rat → Rat) (h : Rat) (mesh : List Rat)
    (y : List Rat) (k : Nat) : List Rat :=
  let t := mesh.getD k 0
  y.set (k + 1) (y.getD k 0 + h * f t (y.getD k 0))

/-- `solve`: `y = np.zeros(num_steps + 1); y[0] = y_0;` then the loop
`for k in range(num_steps)` applying `eulerStep`. -/
def solve (f : Rat → Rat → Rat) (h y_0 : Rat) (mesh : List Rat)
    (num_steps : Nat) : List Rat :=
  let y := (List.replicate (num_steps + 1) (0 : Rat)).set 0 y_0
  (List.range num_steps).foldl (eulerStep f h mesh) y

/-- The `solve` loop body instrumented to record each `(t, y[k])` argument
pair passed to the derivative function `f`. -/
def eulerStepT (f : Rat → Rat → Rat) (h : Rat) (mesh : List Rat)
    (st : List Rat × List (Rat × Rat)) (k : Nat) : List Rat × List (Rat × Rat) :=
  let t := mesh.getD k 0
  let yk := st.1.getD k 0
  (st.1.set (k + 1) (yk + h * f t yk), st.2 ++ [(t, yk)])

/-- `solve` instrumented with the list of argument pairs on which `f` is
invoked, in call order. -/
def solveTrace (f : Rat → Rat → Rat) (h y_0 : Rat) (mesh : List Rat)
    (num_steps : Nat) : List Rat × List (Rat × Rat) :=
  let y := (List.replicate (num_steps + 1) (0 : Rat)).set 0 y_0
  (List.range num_steps).foldl (eulerStepT f h mesh) (y, [])

/-- The state of a fully constructed `Euler1D_Solve` instance: the frozen
inputs and the derived attributes set at the end of `__init__`. -/
structure Euler1D_Solve where
  f : Rat → Rat → Rat
  t_start : Rat
  t_end : Rat
  y_0 : Rat
  num_steps : Nat
  mesh : List Rat
  h : Rat
  solution : List Rat

/-- `Euler1D_Solve.__init__`.  The derivative argument is `some f` when
callable and `none` otherwise.  Validation order follows the source:
callable check, `t_start`/`t_end` type check, range check, `num_steps`
check, `y_0` check; then `mesh`, `h` and `solution` are computed eagerly. -/
def Euler1D_Solve_init (fArg : Option (Rat → Rat → Rat))
    (t_start t_end y_0 num_steps : PyVal) :
    Except InvalidArgument Euler1D_Solve :=
  match fArg with
  | none => .error .NotCallable
  | some f =>
    if isinstance_int_or_float t_start = false ∨
        isinstance_int_or_float t_end = false then
      .error .NotANumber
    else if toRat t_start ≥ toRat t_end then
      .error .RangeViolation
    else if isinstance_int num_steps = false ∨ toInt num_steps ≤ 0 then
      .error .InvalidStepCount
    else if isinstance_int_or_float y_0 = false ∨ isinstance_bool y_0 = true then
      .error .NotANumber
    else
      let ts := toRat t_start
      let te := toRat t_end
      let n := (toInt num_steps).toNat
      let y0 := toRat y_0
      let mesh := create_1d_mesh ts te n
      let h := (calc_step_size ts te n).getD 0
      let sol := solve f h y0 mesh n
      .ok ⟨f, ts, te, y0, n, mesh, h, sol⟩

/-- `__init__` instrumented with the list of argument pairs on which the
derivative function is invoked during construction (empty on every
validation failure, since every check precedes the `solve` call). -/
def Euler1D_Solve_initTrace (fArg : Option (Rat → Rat → Rat))
    (t_start t_end y_0 num_steps : PyVal) :
    Except InvalidArgument Euler1D_Solve × List (Rat × Rat) :=
  match fArg with
  | none => (.error .NotCallable, [])
  | some f =>
    if isinstance_int_or_float t_start = false ∨
        isinstance_int_or_float t_end = false then
      (.error .NotANumber, [])
    else if toRat t_start ≥ toRat t_end then
      (.error .RangeViolation, [])
    else if isinstance_int num_steps = false ∨ toInt num_steps ≤ 0 then
      (.error .InvalidStepCount, [])
    else if isinstance_int_or_float y_0 = false ∨ isinstance_bool y_0 = true then
      (.error .NotANumber, [])
    else
      let ts := toRat t_start
      let te := toRat t_end
      let n := (toInt num_steps).toNat
      let y0 := toRat y_0
      let mesh := create_1d_mesh ts te n
      let h := (calc_step_size ts te n).getD 0
      let st := solveTrace f h y0 mesh n
      (.ok ⟨f, ts, te, y0, n, mesh, h, st.1⟩, st.2)

/-- `true` iff construction succeeded. -/
def isOkE {ε α : Type _} : Except ε α → Bool
  | .ok _ => true
  | .error _ => false

/-- The exact value sequence of the Euler recurrence used as reference:
`eulerY 0 = y_0` and `eulerY (k+1) = eulerY k + h * f (mesh[k]) (eulerY k)`. -/
def eulerY (f : Rat → Rat → Rat) (h : Rat) (mesh : List Rat) (y0 : Rat) :
    Nat → Rat
  | 0 => y0
  | k + 1 => eulerY f h mesh y0 k + h * f (mesh.getD k 0) (eulerY f h mesh y0 k)

lemma getD_set_self_of_lt (l : List Rat) (i : Nat) (a : Rat) (h : i < l.length) :
    (l.set i a).getD i 0 = a := by
  simp [List.getD_eq_getElem?_getD, List.getElem?_set_self h]

lemma getD_set_of_ne (l : List Rat) (i j : Nat) (a : Rat) (h : i ≠ j) :
    (l.set i a).getD j 0 = l.getD j 0 := by
  simp [List.getD_eq_getElem?_getD, List.getElem?_set_ne h]

/-- The `solve` loop preserves the length of the value array. -/
lemma length_foldl_eulerStep (f : Rat → Rat → Rat) (h : Rat) (mesh : List Rat)
    (l : List Nat) (y : List Rat) :
    (l.foldl (eulerStep f h mesh) y).length = y.length := by
  induction l generalizing y with
  | nil => rfl
  | cons a l ih => simp [List.foldl_cons, eulerStep, ih]

/-- Loop invariant of `solve`: after the first `m` iterations, every entry of
index `k ≤ m` holds the reference value `eulerY k`. -/
lemma foldl_eulerStep_getD (f : Rat → Rat → Rat) (h : Rat) (mesh : List Rat)
    (y0 : Rat) (y : List Rat) (hy : y.getD 0 0 = y0) (m : Nat)
    (hm : m < y.length) :
    ∀ k, k ≤ m → ((List.range m).foldl (eulerStep f h mesh) y).getD k 0
      = eulerY f h mesh y0 k := by
  induction m with
  | zero =>
    intro k hk
    have hk0 : k = 0 := Nat.le_zero.mp hk
    subst hk0
    simpa [List.range_zero] using hy
  | succ m ih =>
    intro k hk
    have hm1 : m < y.length := Nat.lt_of_succ_lt hm
    have ihm := ih hm1
    rw [List.range_succ, List.foldl_append, List.foldl_cons, List.foldl_nil]
    have hlen : ((List.range m).foldl (eulerStep f h mesh) y).length = y.length :=
      length_foldl_eulerStep f h mesh _ y
    rcases Nat.lt_or_ge k (m + 1) with hk1 | hk1
    · have hkm : k ≤ m := Nat.lt_succ_iff.mp hk1
      rw [eulerStep, getD_set_of_ne _ _ _ _ (Nat.ne_of_gt hk1)]
      exact ihm k hkm
    · have hkeq : k = m + 1 := Nat.le_antisymm hk hk1
      subst hkeq
      rw [eulerStep, getD_set_self_of_lt _ _ _ (by rw [hlen]; exact hm)]
      rw [ihm m (Nat.le_refl m)]
      rfl

/-- The array produced by `solve` is `[eulerY 0, eulerY 1, ..., eulerY n]`. -/
lemma solve_eq_map (f : Rat → Rat → Rat) (h y0 : Rat) (mesh : List Rat)
    (n : Nat) :
    solve f h y0 mesh n = (List.range (n + 1)).map (eulerY f h mesh y0) := by
  apply List.ext_getElem
  · simp [solve, length_foldl_eulerStep]
  · intro i hi1 hi2
    have hlen : (solve f h y0 mesh n).length = n + 1 := by
      simp [solve, length_foldl_eulerStep]
    have hi : i < n + 1 := by rwa [hlen] at hi1
    have hy : ((List.replicate (n + 1) (0 : Rat)).set 0 y0).getD 0 0 = y0 :=
      getD_set_self_of_lt _ _ _ (by simp)
    have hstep := foldl_eulerStep_getD f h mesh y0
      ((List.replicate (n + 1) (0 : Rat)).set 0 y0) hy n (by simp) i
      (Nat.lt_succ_iff.mp hi)
    rw [← List.getD_eq_getElem (solve f h y0 mesh n) 0 hi1]
    rw [List.getElem_map]
    simpa [solve, List.getElem_range] using hstep

/-- `solve` returns a sequence of exactly `num_steps + 1` values. -/
lemma length_solve (f : Rat → Rat → Rat) (h y0 : Rat) (mesh : List Rat)
    (n : Nat) : (solve f h y0 mesh n).length = n + 1 := by
  simp [solve, length_foldl_eulerStep]

lemma getD_solve (f : Rat → Rat → Rat) (h y0 : Rat) (mesh : List Rat)
    (n : Nat) (k : Nat) (hk : k ≤ n) :
    (solve f h y0 mesh n).getD k 0 = eulerY f h mesh y0 k := by
  rw [solve_eq_map]
  rw [List.getD_eq_getElem _ _ (by simpa using Nat.lt_succ_of_le hk)]
  simp [List.getElem_map, List.getElem_range]

/-- The value-array component of the instrumented loop equals the plain loop. -/
lemma foldl_eulerStepT_fst (f : Rat → Rat → Rat) (h : Rat) (mesh : List Rat)
    (l : List Nat) (y : List Rat) (tr : List (Rat × Rat)) :
    (l.foldl (eulerStepT f h mesh) (y, tr)).1 = l.foldl (eulerStep f h mesh) y := by
  induction l generalizing y tr with
  | nil => rfl
  | cons a l ih =>
    rw [List.foldl_cons, List.foldl_cons]
    exact ih _ _

/-- The calls recorded by the first `m` iterations of the instrumented loop:
one call per iteration, on `(mesh[k], y-value at index k before the update)`. -/
lemma foldl_eulerStepT_snd (f : Rat → Rat → Rat) (h : Rat) (mesh : List Rat)
    (y : List Rat) (tr : List (Rat × Rat)) (m : Nat) :
    ((List.range m).foldl (eulerStepT f h mesh) (y, tr)).2 =
      tr ++ (List.range m).map (fun k =>
        (mesh.getD k 0, ((List.range k).foldl (eulerStep f h mesh) y).getD k 0)) := by
  induction m with
  | zero => simp
  | succ m ih =>
    rw [List.range_succ, List.foldl_append, List.foldl_cons, List.foldl_nil]
    have hpair : (List.range m).foldl (eulerStepT f h mesh) (y, tr) =
        (((List.range m).foldl (eulerStepT f h mesh) (y, tr)).1,
         ((List.range m).foldl (eulerStepT f h mesh) (y, tr)).2) := rfl
    rw [eulerStepT]
    rw [ih, foldl_eulerStepT_fst]
    rw [List.map_append]
    simp [List.append_assoc]

/-- `solveTrace` computes the same value array as `solve`. -/
lemma solveTrace_fst (f : Rat → Rat → Rat) (h y0 : Rat) (mesh : List Rat)
    (n : Nat) : (solveTrace f h y0 mesh n).1 = solve f h y0 mesh n :=
  foldl_eulerStepT_fst f h mesh _ _ _

/-- The full call trace of `solve`: exactly one call per step `k < n`, with
arguments `(mesh[k], eulerY k)` — the value accumulated so far, never the
value updated in the same step. -/
lemma solveTrace_snd (f : Rat → Rat → Rat) (h y0 : Rat) (mesh : List Rat)
    (n : Nat) :
    (solveTrace f h y0 mesh n).2 = (List.range n).map (fun k =>
      (mesh.getD k 0, eulerY f h mesh y0 k)) := by
  unfold solveTrace
  rw [foldl_eulerStepT_snd]
  rw [List.nil_append]
  apply List.map_congr_left
  intro k hk
  have hkn : k < n := List.mem_range.mp hk
  have hy : ((List.replicate (n + 1) (0 : Rat)).set 0 y0).getD 0 0 = y0 :=
    getD_set_self_of_lt _ _ _ (by simp)
  have := foldl_eulerStep_getD f h mesh y0
    ((List.replicate (n + 1) (0 : Rat)).set 0 y0) hy k
    (by simp; omega) k (Nat.le_refl k)
  rw [this]

/-- The mesh is the inclusive linear spacing
`t_start + i * ((t_end - t_start) / num_steps)` for `i = 0, ..., num_steps`. -/
lemma create_1d_mesh_eq_map (ts te : Rat) (n : Nat) (hn : 1 ≤ n) :
    create_1d_mesh ts te n = (List.range (n + 1)).map
      (fun (i : Nat) => ts + (i : Rat) * ((te - ts) / (n : Rat))) := by
  unfold create_1d_mesh linspace
  rw [if_pos (by omega : 1 < n + 1)]
  simp only [Nat.add_sub_cancel]
  apply List.ext_getElem
  · simp
  · intro i hi1 hi2
    have hi : i < n + 1 := by simpa using hi2
    rw [List.getElem_set]
    rcases eq_or_ne n i with hni | hni
    · subst hni
      rw [if_pos rfl]
      have hn0 : (n : Rat) ≠ 0 := Nat.cast_ne_zero.mpr (by omega)
      simp only [List.getElem_map, List.getElem_range]
      field_simp
    · rw [if_neg hni]

/-- The mesh always has `num_steps + 1` points. -/
lemma length_create_1d_mesh (ts te : Rat) (n : Nat) :
    (create_1d_mesh ts te n).length = n + 1 := by
  unfold create_1d_mesh linspace
  split <;> simp

lemma getD_create_1d_mesh (ts te : Rat) (n : Nat) (hn : 1 ≤ n) (k : Nat)
    (hk : k ≤ n) :
    (create_1d_mesh ts te n).getD k 0 = ts + (k : Rat) * ((te - ts) / (n : Rat)) := by
  rw [create_1d_mesh_eq_map ts te n hn]
  rw [List.getD_eq_getElem _ _ (by simp; omega)]
  simp

/-- The instrumented constructor computes the same result as `__init__`. -/
lemma initTrace_fst (fArg : Option (Rat → Rat → Rat)) (v1 v2 v3 v4 : PyVal) :
    (Euler1D_Solve_initTrace fArg v1 v2 v3 v4).1 =
      Euler1D_Solve_init fArg v1 v2 v3 v4 := by
  cases fArg with
  | none => rfl
  | some f =>
    simp only [Euler1D_Solve_initTrace, Euler1D_Solve_init]
    split_ifs <;> first
      | rfl
      | simp only [solveTrace_fst]

/-- When construction fails, the derivative function is never invoked. -/
lemma initTrace_snd_error (fArg : Option (Rat → Rat → Rat)) (v1 v2 v3 v4 : PyVal)
    (e : InvalidArgument) (herr : Euler1D_Solve_init fArg v1 v2 v3 v4 = .error e) :
    (Euler1D_Solve_initTrace fArg v1 v2 v3 v4).2 = [] := by
  cases fArg with
  | none => rfl
  | some f =>
    simp only [Euler1D_Solve_init] at herr
    simp only [Euler1D_Solve_initTrace]
    split_ifs at herr ⊢ <;> rfl

/-- A validation failure does not depend on the callable supplied for `f`. -/
lemma init_error_independent (f g : Rat → Rat → Rat) (v1 v2 v3 v4 : PyVal)
    (e : InvalidArgument)
    (herr : Euler1D_Solve_init (some f) v1 v2 v3 v4 = .error e) :
    Euler1D_Solve_init (some g) v1 v2 v3 v4 = .error e := by
  simp only [Euler1D_Solve_init] at herr ⊢
  split_ifs at herr ⊢ <;> exact herr

/-- A successfully constructed instance stores as `solution` exactly the
value that re-running `solve` on its own frozen fields produces. -/
lemma init_ok_solution (fArg : Option (Rat → Rat → Rat)) (v1 v2 v3 v4 : PyVal)
    (s : Euler1D_Solve)
    (hok : Euler1D_Solve_init fArg v1 v2 v3 v4 = .ok s) :
    s.solution = solve s.f s.h s.y_0 s.mesh s.num_steps := by
  cases fArg with
  | none => exact nomatch hok
  | some f =>
    simp only [Euler1D_Solve_init] at hok
    split_ifs at hok
    injection hok with hs
    subst hs
    rfl

/-- A fixed concrete derivative, `f(t, y) = y`, used in concrete instances. -/
def fId : Rat → Rat → Rat := fun _ y => y

/-- A concrete successfully-constructed instance
(`f(t,y) = y`, `t_start = 0`, `t_end = 1`, `y_0 = 1`, `num_steps = 2`). -/
def demoSolver : Euler1D_Solve :=
  match Euler1D_Solve_init (some fId) (.vFloat 0) (.vFloat 1) (.vFloat 1) (.vInt 2) with
  | .ok s => s
  | .error _ => ⟨fId, 0, 1, 1, 1, [], 0, []⟩

/-- C1: for every validated problem (`t_start < t_end`, `num_steps ≥ 1`),
`solve()` returns exactly `num_steps + 1` reals with `solution[0] = y_0` and
`solution[k+1] = solution[k] + h * f(mesh[k], solution[k])` for every
`k < num_steps`; `f` is invoked exactly `num_steps` times, always on
`(mesh[k], solution[k])` — the accumulated value, never the value updated in
the same step. -/
theorem solve_euler_recurrence (f : Rat → Rat → Rat) (ts te y0 : Rat) (n : Nat)
    (_hr : ts < te) (_hn : 1 ≤ n) :
    (solve f ((calc_step_size ts te n).getD 0) y0 (create_1d_mesh ts te n) n).length
        = n + 1 ∧
    (solve f ((calc_step_size ts te n).getD 0) y0 (create_1d_mesh ts te n) n).getD 0 0
        = y0 ∧
    (∀ k, k < n →
      (solve f ((calc_step_size ts te n).getD 0) y0 (create_1d_mesh ts te n) n).getD (k + 1) 0
        = (solve f ((calc_step_size ts te n).getD 0) y0 (create_1d_mesh ts te n) n).getD k 0
          + ((calc_step_size ts te n).getD 0)
            * f ((create_1d_mesh ts te n).getD k 0)
              ((solve f ((calc_step_size ts te n).getD 0) y0 (create_1d_mesh ts te n) n).getD k 0)) ∧
    (solveTrace f ((calc_step_size ts te n).getD 0) y0 (create_1d_mesh ts te n) n).2.length
        = n ∧
    (solveTrace f ((calc_step_size ts te n).getD 0) y0 (create_1d_mesh ts te n) n).2
        = (List.range n).map (fun k => ((create_1d_mesh ts te n).getD k 0,
            (solve f ((calc_step_size ts te n).getD 0) y0 (create_1d_mesh ts te n) n).getD k 0)) := by
  refine ⟨length_solve _ _ _ _ _, getD_solve _ _ _ _ _ 0 (Nat.zero_le n), ?_, ?_, ?_⟩
  · intro k hk
    rw [getD_solve _ _ _ _ _ (k + 1) hk, getD_solve _ _ _ _ _ k (Nat.le_of_lt hk)]
    rfl
  · rw [solveTrace_snd]
    simp
  · rw [solveTrace_snd]
    apply List.map_congr_left
    intro k hk
    rw [getD_solve _ _ _ _ _ k (Nat.le_of_lt (List.mem_range.mp hk))]

/-- C1 witness: the recurrence theorem applied to the concrete problem
`f(t,y) = y`, `t_start = 0`, `t_end = 1`, `y_0 = 1`, `num_steps = 2`. -/
theorem solve_euler_recurrence_witness :
    (0 : Rat) < 1 ∧ 1 ≤ 2 ∧
    ((solve fId ((calc_step_size 0 1 2).getD 0) 1 (create_1d_mesh 0 1 2) 2).length
        = 2 + 1 ∧
    (solve fId ((calc_step_size 0 1 2).getD 0) 1 (create_1d_mesh 0 1 2) 2).getD 0 0
        = 1 ∧
    (∀ k, k < 2 →
      (solve fId ((calc_step_size 0 1 2).getD 0) 1 (create_1d_mesh 0 1 2) 2).getD (k + 1) 0
        = (solve fId ((calc_step_size 0 1 2).getD 0) 1 (create_1d_mesh 0 1 2) 2).getD k 0
          + ((calc_step_size 0 1 2).getD 0)
            * fId ((create_1d_mesh 0 1 2).getD k 0)
              ((solve fId ((calc_step_size 0 1 2).getD 0) 1 (create_1d_mesh 0 1 2) 2).getD k 0)) ∧
    (solveTrace fId ((calc_step_size 0 1 2).getD 0) 1 (create_1d_mesh 0 1 2) 2).2.length
        = 2 ∧
    (solveTrace fId ((calc_step_size 0 1 2).getD 0) 1 (create_1d_mesh 0 1 2) 2).2
        = (List.range 2).map (fun k => ((create_1d_mesh 0 1 2).getD k 0,
            (solve fId ((calc_step_size 0 1 2).getD 0) 1 (create_1d_mesh 0 1 2) 2).getD k 0))) :=
  ⟨by decide, by decide, solve_euler_recurrence fId 0 1 1 2 (by decide) (by decide)⟩

/-- C6: for every successfully constructed solver (deterministic `f`), calling
`solve()` again on the unchanged state returns exactly the stored result of
the first call (`solve()` is idempotent). -/
theorem solve_second_call_identical (fArg : Option (Rat → Rat → Rat))
    (v1 v2 v3 v4 : PyVal) (s : Euler1D_Solve)
    (hok : Euler1D_Solve_init fArg v1 v2 v3 v4 = .ok s) :
    solve s.f s.h s.y_0 s.mesh s.num_steps = s.solution :=
  (init_ok_solution fArg v1 v2 v3 v4 s hok).symm

/-- C6 witness: a second `solve()` call on the concrete instance `demoSolver`
reproduces its stored solution. -/
theorem solve_second_call_identical_witness :
    Euler1D_Solve_init (some fId) (.vFloat 0) (.vFloat 1) (.vFloat 1) (.vInt 2)
        = .ok demoSolver ∧
    solve demoSolver.f demoSolver.h demoSolver.y_0 demoSolver.mesh demoSolver.num_steps
        = demoSolver.solution :=
  ⟨rfl, solve_second_call_identical (some fId)
    (.vFloat 0) (.vFloat 1) (.vFloat 1) (.vInt 2) demoSolver rfl⟩

/-- C4: for every validated problem, `create_mesh()` returns `num_steps + 1`
reals with element 0 equal to `t_start`, element `num_steps` equal to `t_end`
exactly, and consecutive elements spaced exactly
`h = (t_end - t_start) / num_steps` apart. -/
theorem mesh_linear_spacing (ts te : Rat) (n : Nat) (_hr : ts < te)
    (hn : 1 ≤ n) :
    (create_1d_mesh ts te n).length = n + 1 ∧
    (create_1d_mesh ts te n).getD 0 0 = ts ∧
    (create_1d_mesh ts te n).getD n 0 = te ∧
    ∀ k, k < n → (create_1d_mesh ts te n).getD (k + 1) 0
      = (create_1d_mesh ts te n).getD k 0 + (te - ts) / (n : Rat) := by
  have hn0 : (n : Rat) ≠ 0 := Nat.cast_ne_zero.mpr (by omega)
  refine ⟨length_create_1d_mesh ts te n, ?_, ?_, ?_⟩
  · rw [getD_create_1d_mesh ts te n hn 0 (Nat.zero_le n)]
    simp
  · rw [getD_create_1d_mesh ts te n hn n (Nat.le_refl n)]
    field_simp
  · intro k hk
    rw [getD_create_1d_mesh ts te n hn (k + 1) hk,
      getD_create_1d_mesh ts te n hn k (Nat.le_of_lt hk)]
    push_cast
    ring

/-- C4 witness: the mesh theorem at `t_start = 0`, `t_end = 1`,
`num_steps = 2`. -/
theorem mesh_linear_spacing_witness :
    (0 : Rat) < 1 ∧ 1 ≤ 2 ∧
    ((create_1d_mesh 0 1 2).length = 2 + 1 ∧
    (create_1d_mesh 0 1 2).getD 0 0 = 0 ∧
    (create_1d_mesh 0 1 2).getD 2 0 = 1 ∧
    ∀ k, k < 2 → (create_1d_mesh 0 1 2).getD (k + 1) 0
      = (create_1d_mesh 0 1 2).getD k 0 + (1 - 0) / ((2 : Nat) : Rat)) :=
  ⟨by decide, by decide, mesh_linear_spacing 0 1 2 (by decide) (by decide)⟩

/-- C5: for every validated problem, `calc_step_size()` succeeds (the
zero-divisor failure is unreachable since `num_steps > 0`) and returns
exactly `(t_end - t_start) / num_steps`. -/
theorem calc_step_size_formula (ts te : Rat) (n : Nat) (hn : 1 ≤ n) :
    calc_step_size ts te n = some ((te - ts) / (n : Rat)) := by
  unfold calc_step_size
  rw [if_neg (by omega)]

/-- C5 witness: the step-size theorem at `t_start = 0`, `t_end = 1`,
`num_steps = 2`. -/
theorem calc_step_size_formula_witness :
    (1 : Nat) ≤ 2 ∧ calc_step_size 0 1 2 = some ((1 - 0) / ((2 : Nat) : Rat)) :=
  ⟨by decide, calc_step_size_formula 0 1 2 (by decide)⟩

/-- C10: for every validated problem, the step size `h` computed by
`calc_step_size` is strictly positive and the mesh is strictly increasing. -/
theorem mesh_strictly_increasing (ts te : Rat) (n : Nat) (hr : ts < te)
    (hn : 1 ≤ n) :
    0 < (calc_step_size ts te n).getD 0 ∧
    ∀ k, k < n → (create_1d_mesh ts te n).getD k 0
      < (create_1d_mesh ts te n).getD (k + 1) 0 := by
  have hnp : (0 : Rat) < (n : Rat) := by exact_mod_cast Nat.lt_of_lt_of_le Nat.zero_lt_one hn
  have hstep : 0 < (te - ts) / (n : Rat) := div_pos (sub_pos.mpr hr) hnp
  constructor
  · rw [calc_step_size_formula ts te n hn]
    exact hstep
  · intro k hk
    rw [(mesh_linear_spacing ts te n hr hn).2.2.2 k hk]
    exact lt_add_of_pos_right _ hstep

/-- C10 witness: positivity and monotonicity at `t_start = 0`, `t_end = 1`,
`num_steps = 2`. -/
theorem mesh_strictly_increasing_witness :
    (0 : Rat) < 1 ∧ 1 ≤ 2 ∧
    (0 < (calc_step_size 0 1 2).getD 0 ∧
    ∀ k, k < 2 → (create_1d_mesh 0 1 2).getD k 0
      < (create_1d_mesh 0 1 2).getD (k + 1) 0) :=
  ⟨by decide, by decide, mesh_strictly_increasing 0 1 2 (by decide) (by decide)⟩

/-- C7: with the earlier validation stages passing, construction fails with
`NotANumber` exactly when `y_0` is not a number or is a boolean (strings and
both booleans rejected), and succeeds for every non-boolean numeric `y_0`. -/
theorem y0_validation (f : Rat → Rat → Rat) (v1 v2 v4 y0V : PyVal)
    (h1 : isinstance_int_or_float v1 = true)
    (h2 : isinstance_int_or_float v2 = true)
    (hr : toRat v1 < toRat v2)
    (h4 : isinstance_int v4 = true) (hp : 0 < toInt v4) :
    ((isinstance_int_or_float y0V = false ∨ isinstance_bool y0V = true) →
      Euler1D_Solve_init (some f) v1 v2 y0V v4 = .error .NotANumber) ∧
    ((isinstance_int_or_float y0V = true ∧ isinstance_bool y0V = false) →
      isOkE (Euler1D_Solve_init (some f) v1 v2 y0V v4) = true) := by
  have hc1 : ¬(isinstance_int_or_float v1 = false ∨
      isinstance_int_or_float v2 = false) := by simp [h1, h2]
  have hc2 : ¬(toRat v1 ≥ toRat v2) := not_le.mpr hr
  have hc3 : ¬(isinstance_int v4 = false ∨ toInt v4 ≤ 0) := by
    simp [h4]
    omega
  constructor
  · intro hy
    simp only [Euler1D_Solve_init]
    rw [if_neg hc1, if_neg hc2, if_neg hc3, if_pos hy]
  · rintro ⟨hy1, hy2⟩
    simp only [Euler1D_Solve_init]
    rw [if_neg hc1, if_neg hc2, if_neg hc3, if_neg (by simp [hy1, hy2])]
    rfl

/-- C7 witness: a string `y_0` is rejected with `NotANumber` when the other
arguments are valid. -/
theorem y0_validation_witness :
    isinstance_int_or_float (PyVal.vFloat 0) = true ∧
    isinstance_int_or_float (PyVal.vFloat 5) = true ∧
    toRat (PyVal.vFloat 0) < toRat (PyVal.vFloat 5) ∧
    isinstance_int (PyVal.vInt 10) = true ∧ 0 < toInt (PyVal.vInt 10) ∧
    Euler1D_Solve_init (some fId) (.vFloat 0) (.vFloat 5) (.vStr "1.0") (.vInt 10)
      = .error .NotANumber :=
  ⟨rfl, rfl, by decide, rfl, by decide,
    (y0_validation fId (.vFloat 0) (.vFloat 5) (.vInt 10) (.vStr "1.0")
      rfl rfl (by decide) rfl (by decide)).1 (Or.inl rfl)⟩

/-- C8: every validation failure happens before any mesh/step/solution
computation: the instrumented constructor fails with the same error having
invoked `f` zero times, the error value carries no derived state, and the
outcome is independent of the callable supplied for `f`. -/
theorem validation_before_computation (fArg : Option (Rat → Rat → Rat))
    (v1 v2 v3 v4 : PyVal) (e : InvalidArgument)
    (herr : Euler1D_Solve_init fArg v1 v2 v3 v4 = .error e) :
    (Euler1D_Solve_initTrace fArg v1 v2 v3 v4).1 = .error e ∧
    (Euler1D_Solve_initTrace fArg v1 v2 v3 v4).2 = [] ∧
    (fArg = none → e = .NotCallable) ∧
    (∀ (g f1 : Rat → Rat → Rat), fArg = some f1 →
      Euler1D_Solve_init (some g) v1 v2 v3 v4 = .error e) := by
  refine ⟨?_, initTrace_snd_error fArg v1 v2 v3 v4 e herr, ?_, ?_⟩
  · rw [initTrace_fst]
    exact herr
  · intro hnone
    subst hnone
    injection herr with he
    exact he.symm
  · intro g f1 hf
    subst hf
    exact init_error_independent f1 g v1 v2 v3 v4 e herr

/-- C8 witness: a failed construction (non-callable `f`) records zero calls
to the derivative function. -/
theorem validation_before_computation_witness :
    Euler1D_Solve_init none (.vFloat 0) (.vFloat 1) (.vFloat 1) (.vInt 2)
      = .error .NotCallable ∧
    (Euler1D_Solve_initTrace none (.vFloat 0) (.vFloat 1) (.vFloat 1) (.vInt 2)).2
      = [] :=
  ⟨rfl, (validation_before_computation none
    (.vFloat 0) (.vFloat 1) (.vFloat 1) (.vInt 2) .NotCallable rfl).2.1⟩

/-- C9: integer-typed `t_start`, `t_end`, `y_0` behave exactly like the equal
float values, and a valid integer-bounds construction succeeds storing the
bounds converted to (exact) floating values. -/
theorem integer_inputs_behave_as_floats (f : Rat → Rat → Rat) (a b c : Int)
    (v4 : PyVal) :
    (Euler1D_Solve_init (some f) (.vInt a) (.vInt b) (.vInt c) v4 =
      Euler1D_Solve_init (some f)
        (.vFloat (a : Rat)) (.vFloat (b : Rat)) (.vFloat (c : Rat)) v4) ∧
    (a < b → isinstance_int v4 = true → 0 < toInt v4 →
      Euler1D_Solve_init (some f) (.vInt a) (.vInt b) (.vInt c) v4 =
        .ok ⟨f, (a : Rat), (b : Rat), (c : Rat), (toInt v4).toNat,
          create_1d_mesh (a : Rat) (b : Rat) (toInt v4).toNat,
          (calc_step_size (a : Rat) (b : Rat) (toInt v4).toNat).getD 0,
          solve f ((calc_step_size (a : Rat) (b : Rat) (toInt v4).toNat).getD 0)
            (c : Rat) (create_1d_mesh (a : Rat) (b : Rat) (toInt v4).toNat)
            (toInt v4).toNat⟩) := by
  constructor
  · rfl
  · intro hab h4 hp
    simp only [Euler1D_Solve_init]
    rw [if_neg (by simp [isinstance_int_or_float, isinstance_int, isinstance_float]),
      if_neg (not_le.mpr (show toRat (PyVal.vInt a) < toRat (PyVal.vInt b) by
        show (a : Rat) < (b : Rat)
        exact_mod_cast hab)),
      if_neg (by simp [h4]; omega),
      if_neg (by simp [isinstance_int_or_float, isinstance_int, isinstance_float,
        isinstance_bool])]
    rfl

/-- C9 witness: integer bounds `0`, `1` and integer `y_0 = 2` with three
steps are accepted and stored as the equal rational values. -/
theorem integer_inputs_behave_as_floats_witness :
    (0 : Int) < 1 ∧ isinstance_int (PyVal.vInt 3) = true ∧
    0 < toInt (PyVal.vInt 3) ∧
    Euler1D_Solve_init (some fId) (.vInt 0) (.vInt 1) (.vInt 2) (.vInt 3) =
      .ok ⟨fId, ((0 : Int) : Rat), ((1 : Int) : Rat), ((2 : Int) : Rat),
        (toInt (PyVal.vInt 3)).toNat,
        create_1d_mesh ((0 : Int) : Rat) ((1 : Int) : Rat) (toInt (PyVal.vInt 3)).toNat,
        (calc_step_size ((0 : Int) : Rat) ((1 : Int) : Rat) (toInt (PyVal.vInt 3)).toNat).getD 0,
        solve fId ((calc_step_size ((0 : Int) : Rat) ((1 : Int) : Rat)
            (toInt (PyVal.vInt 3)).toNat).getD 0)
          ((2 : Int) : Rat)
          (create_1d_mesh ((0 : Int) : Rat) ((1 : Int) : Rat) (toInt (PyVal.vInt 3)).toNat)
          (toInt (PyVal.vInt 3)).toNat⟩ :=
  ⟨by decide, rfl, by decide,
    (integer_inputs_behave_as_floats fId 0 1 2 (.vInt 3)).2 (by decide) rfl (by decide)⟩

/-- C2 counterexample: a boolean `t_start` is NOT rejected — with otherwise
valid arguments (`t_end = 5.0`, `y_0 = 1.0`, `num_steps = 10`), construction
with `t_start = True` does not fail with `NotANumber` (it succeeds, because
Python's `bool` is a subclass of `int`). -/
theorem bool_t_start_not_rejected :
    Euler1D_Solve_init (some fId) (.vBool true) (.vFloat 5) (.vFloat 1) (.vInt 10)
      ≠ Except.error InvalidArgument.NotANumber :=
  fun h => nomatch h

/-- C2 (amended): a boolean `t_start` or `t_end` is accepted as numeric and
behaves exactly like the float `1.0`/`0.0` of the same truth value;
`NotANumber` is raised for genuinely non-numeric bounds such as strings. -/
theorem t_bounds_validation (f : Rat → Rat → Rat) :
    (∀ (b : Bool) (v2 v3 v4 : PyVal),
      Euler1D_Solve_init (some f) (.vBool b) v2 v3 v4 =
        Euler1D_Solve_init (some f) (.vFloat (if b then 1 else 0)) v2 v3 v4) ∧
    (∀ (v1 : PyVal) (b : Bool) (v3 v4 : PyVal),
      Euler1D_Solve_init (some f) v1 (.vBool b) v3 v4 =
        Euler1D_Solve_init (some f) v1 (.vFloat (if b then 1 else 0)) v3 v4) ∧
    (∀ (s : String) (v2 v3 v4 : PyVal),
      Euler1D_Solve_init (some f) (.vStr s) v2 v3 v4 = .error .NotANumber) ∧
    (∀ (v1 : PyVal) (s : String) (v3 v4 : PyVal),
      Euler1D_Solve_init (some f) v1 (.vStr s) v3 v4 = .error .NotANumber) := by
  refine ⟨fun b v2 v3 v4 => rfl, fun v1 b v3 v4 => rfl, fun s v2 v3 v4 => rfl,
    fun v1 s v3 v4 => ?_⟩
  cases v1 <;> rfl

/-- C3 counterexample: `num_steps = True` is NOT rejected — with otherwise
valid arguments, construction succeeds (`isinstance(True, int)` holds and
`True > 0`), contradicting the claim that every boolean fails with
`InvalidStepCount`. -/
theorem num_steps_true_not_rejected :
    isOkE (Euler1D_Solve_init (some fId) (.vFloat 0) (.vFloat 5) (.vFloat 1)
      (.vBool true)) = true := rfl

/-- C3 (amended): with the earlier checks passing, `num_steps` that is a
non-positive integer, any float, any string, or the boolean `False` fails
with `InvalidStepCount`; the boolean `True` is accepted and behaves exactly
like `num_steps = 1`. -/
theorem num_steps_validation (f : Rat → Rat → Rat) (v1 v2 v3 : PyVal)
    (h1 : isinstance_int_or_float v1 = true)
    (h2 : isinstance_int_or_float v2 = true)
    (hr : toRat v1 < toRat v2) :
    (∀ k : Int, k ≤ 0 →
      Euler1D_Solve_init (some f) v1 v2 v3 (.vInt k) = .error .InvalidStepCount) ∧
    (∀ q : Rat,
      Euler1D_Solve_init (some f) v1 v2 v3 (.vFloat q) = .error .InvalidStepCount) ∧
    (∀ s : String,
      Euler1D_Solve_init (some f) v1 v2 v3 (.vStr s) = .error .InvalidStepCount) ∧
    (Euler1D_Solve_init (some f) v1 v2 v3 (.vBool false) = .error .InvalidStepCount) ∧
    (Euler1D_Solve_init (some f) v1 v2 v3 (.vBool true) =
      Euler1D_Solve_init (some f) v1 v2 v3 (.vInt 1)) := by
  have hc1 : ¬(isinstance_int_or_float v1 = false ∨
      isinstance_int_or_float v2 = false) := by simp [h1, h2]
  have hc2 : ¬(toRat v1 ≥ toRat v2) := not_le.mpr hr
  refine ⟨?_, ?_, ?_, ?_, rfl⟩
  · intro k hk
    simp only [Euler1D_Solve_init]
    rw [if_neg hc1, if_neg hc2,
      if_pos (show isinstance_int (PyVal.vInt k) = false ∨ toInt (PyVal.vInt k) ≤ 0
        from Or.inr hk)]
  · intro q
    simp only [Euler1D_Solve_init]
    rw [if_neg hc1, if_neg hc2,
      if_pos (show isinstance_int (PyVal.vFloat q) = false ∨ toInt (PyVal.vFloat q) ≤ 0
        from Or.inl rfl)]
  · intro s
    simp only [Euler1D_Solve_init]
    rw [if_neg hc1, if_neg hc2,
      if_pos (show isinstance_int (PyVal.vStr s) = false ∨ toInt (PyVal.vStr s) ≤ 0
        from Or.inl rfl)]
  · simp only [Euler1D_Solve_init]
    rw [if_neg hc1, if_neg hc2,
      if_pos (show isinstance_int (PyVal.vBool false) = false ∨
        toInt (PyVal.vBool false) ≤ 0 from Or.inr (by decide))]

/-- C3 witness: `num_steps = False` is rejected with `InvalidStepCount` when
the other arguments are valid. -/
theorem num_steps_validation_witness :
    isinstance_int_or_float (PyVal.vFloat 0) = true ∧
    isinstance_int_or_float (PyVal.vFloat 5) = true ∧
    toRat (PyVal.vFloat 0) < toRat (PyVal.vFloat 5) ∧
    Euler1D_Solve_init (some fId) (.vFloat 0) (.vFloat 5) (.vFloat 1) (.vBool false)
      = .error .InvalidStepCount :=
  ⟨rfl, rfl, by decide,
    (num_steps_validation fId (.vFloat 0) (.vFloat 5) (.vFloat 1)
      rfl rfl (by decide)).2.2.2.1⟩

end FlaxTeal
